import Mathlib

/-!
# Verification of the Bangalore traffic estimator (`src/traffic_app.py`)

A shallow embedding of the single-file Streamlit app.  Numeric computations
that Python performs on IEEE doubles are modelled over `ℚ`; at every concrete
input appearing in a theorem below, double rounding error is far smaller than
the distance of the exact value to the nearest integer boundary (or the value
is exactly representable), so truncations and comparisons agree with the exact
rational results.

Python's `int(...)` and numpy's `.astype(int)` truncate toward zero; numpy's
`np.round` rounds half to even.  Both are modelled explicitly (`pyInt`,
`rround`).  The `int(nan)` failure that pandas/`int` produce on an empty mean
is modelled by an `Option` result (`none` = raised exception).
-/

namespace TrafficApp

/-- One row of the app's DataFrame (columns built at lines 38-51 of
`traffic_app.py`): `Zone`, `Distance_km`, `Time_min`, `Signals`, `Potholes`,
`Road_Quality`. -/
structure RouteSample where
  zone : String
  distance_km : ℚ
  time_min : ℚ
  signals : ℤ
  potholes : ℤ
  road_quality : ℤ
deriving DecidableEq

/-- Python `int(x)` / numpy `.astype(int)`: truncation toward zero. -/
def pyInt (q : ℚ) : ℤ := if q < 0 then -⌊-q⌋ else ⌊q⌋

/-- numpy `np.round`: round to nearest, ties to even. -/
def rround (q : ℚ) : ℤ :=
  if q - ⌊q⌋ < 1/2 then ⌊q⌋
  else if 1/2 < q - ⌊q⌋ then ⌊q⌋ + 1
  else if Even ⌊q⌋ then ⌊q⌋ else ⌊q⌋ + 1

/-- pandas `.round(2)`: round to two decimal places (ties to even). -/
def round2 (q : ℚ) : ℚ := (rround (q * 100) : ℚ) / 100

/-- numpy `np.clip x lo hi`. -/
def clip (x lo hi : ℚ) : ℚ := min (max x lo) hi

/-! ## Estimator (lines 135-142)

`INTERCEPT = 9.538`, `COEFF_DIST = 4.18`, `COEFF_SIGNAL = 0.95`,
`COEFF_POTHOLE = 1.8`;
`predicted_time = INTERCEPT + COEFF_DIST*distance + COEFF_SIGNAL*signals +
COEFF_POTHOLE*estimated_potholes`; `fuel_loss = (predicted_time/60)*0.3`;
`fuel_cost = fuel_loss*102`. -/

def INTERCEPT : ℚ := 9.538
def COEFF_DIST : ℚ := 4.18
def COEFF_SIGNAL : ℚ := 0.95
def COEFF_POTHOLE : ℚ := 1.8

def predicted_time (distance signals estimatedPotholes : ℚ) : ℚ :=
  INTERCEPT + COEFF_DIST * distance + COEFF_SIGNAL * signals
    + COEFF_POTHOLE * estimatedPotholes

def fuel_loss (distance signals estimatedPotholes : ℚ) : ℚ :=
  predicted_time distance signals estimatedPotholes / 60 * 0.3

def fuel_cost (distance signals estimatedPotholes : ℚ) : ℚ :=
  fuel_loss distance signals estimatedPotholes * 102

/-- Regression constants of the synthetic-data generator (lines 28-29):
`base_time = 9.538 + 4.524*dist`, `noise = signals*0.5 + potholes*1.0 + ...`. -/
def GEN_INTERCEPT : ℚ := 9.538
def GEN_COEFF_DIST : ℚ := 4.524
def GEN_COEFF_SIGNAL : ℚ := 0.5
def GEN_COEFF_POTHOLE : ℚ := 1.0

/-- Line 88 (and line 121): `estimated_potholes = int((10 - quality_rating) * 2.2)`.
Python `int` truncates; on `quality_rating ∈ [1,10]` the double product never
falls within an ulp of an integer except when exactly integral, so the exact
rational model agrees with the float computation. -/
def estimated_potholes (quality_rating : ℤ) : ℤ :=
  pyInt ((10 - (quality_rating : ℚ)) * 2.2)

/-- The pothole conversion as the spec words it, with `round` in place of the
code's truncation (for comparison with `estimated_potholes`). -/
def estimated_potholes_specRounded (quality_rating : ℤ) : ℤ :=
  rround ((10 - (quality_rating : ℚ)) * 2.2)

/-! ### Helper lemmas -/

theorem pyInt_of_nonneg {q : ℚ} (h : 0 ≤ q) : pyInt q = ⌊q⌋ := by
  rw [pyInt, if_neg (not_lt.mpr h)]

theorem floor_le_rround (q : ℚ) : ⌊q⌋ ≤ rround q := by
  rw [rround]
  split_ifs <;> omega

theorem rround_le_floor_add_one (q : ℚ) : rround q ≤ ⌊q⌋ + 1 := by
  rw [rround]
  split_ifs <;> omega

theorem le_rround_of_intCast_le {n : ℤ} {q : ℚ} (h : (n : ℚ) ≤ q) :
    n ≤ rround q := le_trans (Int.le_floor.mpr h) (floor_le_rround q)

theorem rround_le_of_le_intCast {n : ℤ} {q : ℚ} (h : q ≤ (n : ℚ)) :
    rround q ≤ n := by
  have hfl : ⌊q⌋ ≤ n := by
    have := Int.floor_mono h
    simpa using this
  rcases eq_or_lt_of_le hfl with heq | hlt
  · have hq : q - ⌊q⌋ ≤ 0 := by
      rw [heq]
      linarith
    have : q - ⌊q⌋ < 1/2 := by linarith
    rw [rround, if_pos this, heq]
  · have h1 : rround q ≤ ⌊q⌋ + 1 := rround_le_floor_add_one q
    omega

theorem le_round2_of_intCast_le {n : ℤ} {q : ℚ} (h : (n : ℚ) ≤ q) :
    (n : ℚ) ≤ round2 q := by
  rw [round2]
  have h1 : ((n * 100 : ℤ) : ℚ) ≤ q * 100 := by push_cast; linarith
  have h2 : (n * 100 : ℤ) ≤ rround (q * 100) := le_rround_of_intCast_le h1
  have h3 : ((n * 100 : ℤ) : ℚ) ≤ (rround (q * 100) : ℚ) := by exact_mod_cast h2
  push_cast at h3
  linarith

theorem round2_le_of_le_intCast {n : ℤ} {q : ℚ} (h : q ≤ (n : ℚ)) :
    round2 q ≤ (n : ℚ) := by
  rw [round2]
  have h1 : q * 100 ≤ ((n * 100 : ℤ) : ℚ) := by push_cast; linarith
  have h2 : rround (q * 100) ≤ (n * 100 : ℤ) := rround_le_of_le_intCast h1
  have h3 : (rround (q * 100) : ℚ) ≤ ((n * 100 : ℤ) : ℚ) := by exact_mod_cast h2
  push_cast at h3
  linarith

theorem clip_le {x lo hi : ℚ} : clip x lo hi ≤ hi := min_le_right _ _

theorem le_clip {x lo hi : ℚ} (h : lo ≤ hi) : lo ≤ clip x lo hi :=
  le_min (le_max_right _ _) h

/-! ## Claims about the estimator formula -/

/-- **C1.** The estimator computes
`predicted_time_min = 9.538 + 4.18*distance + 0.95*signals + 1.8*potholes`,
`fuel_loss_liters = predicted_time_min / 60 * 0.3` and
`fuel_cost = fuel_loss_liters * 102`, with no rounding inside the
computation, and its coefficients (4.18, 0.95, 1.8) differ from the
generator's (4.524, 0.5, 1.0). -/
theorem C1_estimator_formula :
    (∀ d s p : ℚ,
        predicted_time d s p = 9.538 + 4.18 * d + 0.95 * s + 1.8 * p
          ∧ fuel_loss d s p = predicted_time d s p / 60 * 0.3
          ∧ fuel_cost d s p = fuel_loss d s p * 102)
      ∧ COEFF_DIST ≠ GEN_COEFF_DIST
      ∧ COEFF_SIGNAL ≠ GEN_COEFF_SIGNAL
      ∧ COEFF_POTHOLE ≠ GEN_COEFF_POTHOLE
      ∧ INTERCEPT = GEN_INTERCEPT := by
  refine ⟨fun d s p => ⟨rfl, rfl, rfl⟩, ?_, ?_, ?_, rfl⟩ <;>
    norm_num [COEFF_DIST, GEN_COEFF_DIST, COEFF_SIGNAL, GEN_COEFF_SIGNAL,
      COEFF_POTHOLE, GEN_COEFF_POTHOLE]

/-- **C6.** On nonnegative inputs, `predicted_time` is strictly increasing in
each of its three arguments separately. -/
theorem C6_predicted_time_strict_mono :
    (∀ d₁ d₂ s p : ℚ, 0 ≤ d₁ → 0 ≤ s → 0 ≤ p → d₁ < d₂ →
        predicted_time d₁ s p < predicted_time d₂ s p)
      ∧ (∀ d s₁ s₂ p : ℚ, 0 ≤ d → 0 ≤ s₁ → 0 ≤ p → s₁ < s₂ →
        predicted_time d s₁ p < predicted_time d s₂ p)
      ∧ (∀ d s p₁ p₂ : ℚ, 0 ≤ d → 0 ≤ s → 0 ≤ p₁ → p₁ < p₂ →
        predicted_time d s p₁ < predicted_time d s p₂) := by
  refine ⟨fun d₁ d₂ s p _ _ _ hlt => ?_, fun d s₁ s₂ p _ _ _ hlt => ?_,
    fun d s p₁ p₂ _ _ _ hlt => ?_⟩ <;>
  · unfold predicted_time COEFF_DIST COEFF_SIGNAL COEFF_POTHOLE
    nlinarith

/-- Closed instance of `C6_predicted_time_strict_mono`. -/
theorem C6_predicted_time_strict_mono_witness :
    predicted_time 0 0 0 < predicted_time 1 0 0
      ∧ predicted_time 0 0 0 < predicted_time 0 1 0
      ∧ predicted_time 0 0 0 < predicted_time 0 0 1 :=
  ⟨C6_predicted_time_strict_mono.1 0 1 0 0 le_rfl le_rfl le_rfl one_pos,
   C6_predicted_time_strict_mono.2.1 0 0 1 0 le_rfl le_rfl le_rfl one_pos,
   C6_predicted_time_strict_mono.2.2 0 0 0 1 le_rfl le_rfl le_rfl one_pos⟩

/-- **C2, counterexample.** At `quality_rating = 7` the code's conversion
(line 88, Python `int`, i.e. truncation) yields 6, while the claimed
`round((10-7)*2.2) = round(6.6)` yields 7. -/
theorem C2_quality_to_potholes_counterexample :
    estimated_potholes 7 = 6
      ∧ estimated_potholes_specRounded 7 = 7
      ∧ estimated_potholes 7 ≠ estimated_potholes_specRounded 7 := by
  refine ⟨?_, ?_, ?_⟩ <;>
    norm_num [estimated_potholes, estimated_potholes_specRounded, pyInt, rround,
      Int.floor_eq_iff, show ((6:ℚ) ≤ (10 - 7) * 2.2) by norm_num]

/-- **C2, amended.** For `quality_rating ∈ [1,10]` the code derives
`estimated_potholes = trunc((10 - quality_rating) * 2.2)` — truncation (the
floor, as the operand is nonnegative), not rounding; in particular quality 7
gives 6 potholes. -/
theorem C2_quality_to_potholes_truncates (q : ℤ) (h1 : 1 ≤ q) (h10 : q ≤ 10) :
    estimated_potholes q = ⌊(10 - (q : ℚ)) * 2.2⌋
      ∧ estimated_potholes 7 = 6 := by
  constructor
  · have hq : (0 : ℚ) ≤ (10 - (q : ℚ)) * 2.2 := by
      have : (q : ℚ) ≤ 10 := by exact_mod_cast h10
      nlinarith
    exact pyInt_of_nonneg hq ▸ rfl
  · norm_num [estimated_potholes, pyInt, Int.floor_eq_iff,
      show ((6:ℚ) ≤ (10 - 7) * 2.2) by norm_num]

/-- Closed instance of `C2_quality_to_potholes_truncates` at quality 3. -/
theorem C2_quality_to_potholes_truncates_witness :
    estimated_potholes 3 = ⌊(10 - (3 : ℚ)) * 2.2⌋ ∧ estimated_potholes 7 = 6 :=
  C2_quality_to_potholes_truncates 3 (by norm_num) (by norm_num)

/-- **C10.** For every integer `quality_rating ∈ [1,10]`, the converted
pothole count lies in `[0, 19]` (inside the data model's `[0,20]`) and is `0`
exactly when the quality is 10. -/
theorem C10_potholes_range (q : ℤ) (h1 : 1 ≤ q) (h10 : q ≤ 10) :
    0 ≤ estimated_potholes q ∧ estimated_potholes q ≤ 19
      ∧ (estimated_potholes q = 0 ↔ q = 10) := by
  have : estimated_potholes q = ⌊(10 - (q : ℚ)) * 2.2⌋ := by
    have hq : (0 : ℚ) ≤ (10 - (q : ℚ)) * 2.2 := by
      have : (q : ℚ) ≤ 10 := by exact_mod_cast h10
      nlinarith
    exact pyInt_of_nonneg hq ▸ rfl
  interval_cases q <;>
    simp_all [estimated_potholes] <;>
    norm_num [Int.floor_eq_iff]

/-- Closed instance of `C10_potholes_range` at quality 1. -/
theorem C10_potholes_range_witness :
    0 ≤ estimated_potholes 1 ∧ estimated_potholes 1 ≤ 19
      ∧ (estimated_potholes 1 = 0 ↔ (1 : ℤ) = 10) :=
  C10_potholes_range 1 le_rfl (by norm_num)

/-! ## Zone lookup (lines 96-121) -/

/-- The "unknown route" sentinel offered in the zone select box (line 97). -/
def SENTINEL : String := "Other / Unknown Route"

/-- pandas `series.mean()` over an integer column, as an exact rational.
(`[].mean()` is NaN in pandas; callers below that pass the mean to `int()`
model that case with `Option`.) -/
def meanZ (l : List ℤ) : ℚ := (l.sum : ℚ) / l.length

/-- Lines 96-98: the zone choices offered — the distinct zone names of the
table, sorted, followed by the sentinel. -/
def availableZones (df : List RouteSample) : List String :=
  List.insertionSort (· ≤ ·) (df.map (fun r => r.zone)).dedup ++ [SENTINEL]

/-- Lines 100-121: resolve the `(signals, displayed quality, estimated
potholes)` triple for a selected zone.  Sentinel: whole-table means of the
`Signals` and `Potholes` columns and a fixed displayed quality of 5.  Other
zones: per-zone means, with the pothole count converted from the averaged
road quality.  On an empty zone subset, `int(zone_data[...].mean())` is
`int(nan)`, which raises `ValueError` — modelled as `none`. -/
def resolveZone (df : List RouteSample) (z : String) : Option (ℤ × ℤ × ℤ) :=
  if z = SENTINEL then
    some (pyInt (meanZ (df.map (fun r => r.signals))), 5,
          pyInt (meanZ (df.map (fun r => r.potholes))))
  else
    let zd := df.filter (fun r => r.zone == z)
    if zd.isEmpty then none
    else
      let q := pyInt (meanZ (zd.map (fun r => r.road_quality)))
      some (pyInt (meanZ (zd.map (fun r => r.signals))), q, estimated_potholes q)

/-- A concrete table row used in counterexamples and witnesses. -/
def sampleRow : RouteSample :=
  { zone := "Whitefield", distance_km := 10, time_min := 30,
    signals := 14, potholes := 0, road_quality := 10 }

/-- **C4, counterexample.** On a one-row table whose `Road_Quality` is 10, the
sentinel lookup yields displayed quality 5 (and pothole input 0 taken from the
`Potholes` column), not the whole-table `Road_Quality` average 10. -/
theorem C4_sentinel_quality_counterexample :
    resolveZone [sampleRow] SENTINEL = some (14, 5, 0)
      ∧ pyInt (meanZ ([sampleRow].map (fun r => r.road_quality))) = 10
      ∧ (5 : ℤ) ≠ 10 := by
  refine ⟨?_, ?_, by norm_num⟩ <;>
    norm_num [resolveZone, sampleRow, meanZ, pyInt]

/-- **C4, amended.** For the sentinel zone, the signals value is the
whole-table average of the `Signals` column (truncated to int), but the
displayed road quality is the fixed value 5 and the estimator's pothole input
is the whole-table average of the `Potholes` column — the `Road_Quality`
column is not averaged. -/
theorem C4_sentinel_whole_table_averages :
    ∀ df : List RouteSample,
      resolveZone df SENTINEL
        = some (pyInt (meanZ (df.map (fun r => r.signals))), 5,
                pyInt (meanZ (df.map (fun r => r.potholes)))) := by
  intro df
  simp [resolveZone]

/-- **C5, counterexample.** Selecting a zone absent from the table makes the
filtered subset empty and the lookup raise (`int(nan)`, modelled `none`)
instead of producing a fallback value. -/
theorem C5_empty_subset_counterexample :
    ([sampleRow].filter (fun r => r.zone == "Nowhere")).isEmpty = true
      ∧ resolveZone [sampleRow] "Nowhere" = none := by
  refine ⟨by simp [sampleRow], ?_⟩
  simp [resolveZone, SENTINEL, sampleRow]

/-- **C5, amended.** The code has no empty-subset guard: for a non-sentinel
zone whose filtered subset is empty the lookup raises (modelled `none`) rather
than producing a fallback; however, every zone offered by the interface
resolves successfully, so the error case is unreachable through the UI. -/
theorem C5_empty_zone_guard (df : List RouteSample) (z : String) :
    ((df.filter (fun r => r.zone == z)).isEmpty = true → z ≠ SENTINEL →
        resolveZone df z = none)
      ∧ (z ∈ availableZones df → (resolveZone df z).isSome = true) := by
  constructor
  · intro hemp hne
    rw [resolveZone, if_neg hne, if_pos hemp]
  · intro hz
    by_cases hs : z = SENTINEL
    · rw [resolveZone, if_pos hs]
      rfl
    · rw [availableZones, List.mem_append] at hz
      rcases hz with hz | hz
      · rw [List.Perm.mem_iff (List.perm_insertionSort _ _), List.mem_dedup,
          List.mem_map] at hz
        obtain ⟨r, hr, hrz⟩ := hz
        have hmem : r ∈ df.filter (fun r => r.zone == z) :=
          List.mem_filter.mpr ⟨hr, by simp [hrz]⟩
        have hne : ¬(df.filter (fun r => r.zone == z)).isEmpty = true := by
          intro habs
          rw [List.isEmpty_iff] at habs
          rw [habs] at hmem
          exact List.not_mem_nil r hmem
        rw [resolveZone, if_neg hs]
        simp only [if_neg hne]
        rfl
      · simp only [List.mem_singleton] at hz
        exact absurd hz hs

/-- Closed instance of `C5_empty_zone_guard`. -/
theorem C5_empty_zone_guard_witness :
    resolveZone [sampleRow] "Missing Zone" = none
      ∧ (resolveZone [sampleRow] "Whitefield").isSome = true := by
  constructor
  · exact (C5_empty_zone_guard [sampleRow] "Missing Zone").1
      (by simp [sampleRow]) (by simp [SENTINEL])
  · refine (C5_empty_zone_guard [sampleRow] "Whitefield").2 ?_
    rw [availableZones, List.mem_append]
    left
    rw [List.Perm.mem_iff (List.perm_insertionSort _ _)]
    simp [sampleRow]

/-- **C9.** The zone choices offered are exactly the distinct zone names
present in the table plus the sentinel, and every offered non-sentinel zone
has a non-empty filtered subset. -/
theorem C9_available_zones (df : List RouteSample) (z : String) :
    (z ∈ availableZones df ↔ (∃ r ∈ df, r.zone = z) ∨ z = SENTINEL)
      ∧ (z ∈ availableZones df → z ≠ SENTINEL →
          df.filter (fun r => r.zone == z) ≠ []) := by
  have hiff : z ∈ availableZones df ↔ (∃ r ∈ df, r.zone = z) ∨ z = SENTINEL := by
    rw [availableZones, List.mem_append,
      List.Perm.mem_iff (List.perm_insertionSort _ _), List.mem_dedup,
      List.mem_map, List.mem_singleton]
  refine ⟨hiff, fun hz hne => ?_⟩
  rcases hiff.mp hz with ⟨r, hr, hrz⟩ | hsent
  · intro habs
    have hmem : r ∈ df.filter (fun r => r.zone == z) :=
      List.mem_filter.mpr ⟨hr, by simp [hrz]⟩
    rw [habs] at hmem
    exact List.not_mem_nil r hmem
  · exact absurd hsent hne

/-- Closed instance of `C9_available_zones`. -/
theorem C9_available_zones_witness :
    [sampleRow].filter (fun r => r.zone == "Whitefield") ≠ [] := by
  refine (C9_available_zones [sampleRow] "Whitefield").2 ?_ (by simp [SENTINEL])
  exact (C9_available_zones [sampleRow] "Whitefield").1.mpr
    (Or.inl ⟨sampleRow, by simp, rfl⟩)

/-! ## Synthetic data generator (lines 11-53)

numpy's global pseudorandom generator is modelled abstractly: a `Prng` state,
and an `RNG` record of deterministic functions for the library calls the
generator makes (`np.random.seed`, `np.random.normal`, `np.random.poisson`,
`np.random.choice`).  `np.random.seed n` replaces the global state by a state
depending only on `n`, which is what makes the pipeline reproducible.  The
square root inside `np.std` is likewise passed as a deterministic function
`sqrtQ`. -/

/-- Abstract state of numpy's global pseudorandom generator. -/
structure Prng where
  state : ℕ
deriving DecidableEq

/-- The numpy random primitives used by `generate_traffic_data`, as
deterministic state-passing functions. -/
structure RNG where
  seed : ℕ → Prng
  normal : ℚ → ℚ → (n : ℕ) → Prng → (Fin n → ℚ) × Prng
  poisson : ℚ → (n : ℕ) → Prng → (Fin n → ℕ) × Prng
  choice : List String → (n : ℕ) → Prng → (Fin n → String) × Prng

/-- The fixed 8-element zone name set (lines 45-46). -/
def ZONES : List String :=
  ["Whitefield", "Marathahalli", "KR Puram", "Hebbal",
   "Koramangala", "Silk Board", "Bellandur", "HSR Layout"]

def DIST_MEAN : ℚ := 10.66
def TARGET_MEAN : ℚ := 57.77
def TARGET_SD : ℚ := 23.45

/-- Lines 50-51: `Road_Quality = (10 - (Potholes/20*9).astype(int)).clip(1,10)`
(`astype(int)` truncates). -/
def road_qualityZ (p : ℤ) : ℤ :=
  min (max (10 - pyInt ((p : ℚ) / 20 * 9)) 1) 10

/-- The road-quality derivation as the spec words it, with `round` in place of
the code's truncation (for comparison with `road_qualityZ`). -/
def road_quality_specRounded (p : ℤ) : ℤ :=
  min (max (10 - rround ((p : ℚ) / 20 * 9)) 1) 10

/-- Lines 12-53: the synthetic generator.  `np.random.seed 42` is called
first, so every draw depends only on the seed and the (deterministic) library
functions, never on the incoming generator state `s0`. -/
def generate_traffic_data (rng : RNG) (sqrtQ : ℚ → ℚ) (s0 : Prng) :
    List RouteSample :=
  let s1 := rng.seed 42
  let dr := rng.normal DIST_MEAN 4 50 s1
  let dist : Fin 50 → ℚ := fun i => clip (dr.1 i) 3 20
  let pr := rng.poisson 14 50 dr.2
  let signals : Fin 50 → ℤ := fun i =>
    rround (clip ((pr.1 i : ℚ) + (dist i - DIST_MEAN) * 0.3) 0 30)
  let hr := rng.normal 5 3 50 pr.2
  let potholes : Fin 50 → ℤ := fun i =>
    rround (clip (hr.1 i + (dist i - DIST_MEAN) * 0.2) 0 20)
  let nr := rng.normal 0 5 50 hr.2
  let time_raw : Fin 50 → ℚ := fun i =>
    (GEN_INTERCEPT + GEN_COEFF_DIST * dist i)
      + ((signals i : ℚ) * GEN_COEFF_SIGNAL
          + (potholes i : ℚ) * GEN_COEFF_POTHOLE + nr.1 i)
  let timeList := List.ofFn time_raw
  let m := timeList.sum / 50
  let sd := sqrtQ ((timeList.map fun x => (x - m) ^ 2).sum / 50)
  let time_final : Fin 50 → ℚ := fun i =>
    (time_raw i - m) * (TARGET_SD / sd) + TARGET_MEAN
  let zr := rng.choice ZONES 50 nr.2
  List.ofFn fun i : Fin 50 =>
    { zone := zr.1 i
      distance_km := round2 (dist i)
      time_min := round2 (max (time_final i) 15)
      signals := signals i
      potholes := potholes i
      road_quality := road_qualityZ (potholes i) }

/-- **C7.** Generation is deterministic: the incoming generator state is
irrelevant (the function reseeds with the fixed seed 42 first), so any two
invocations produce the same 50-row table. -/
theorem C7_generation_deterministic :
    ∀ (rng : RNG) (sqrtQ : ℚ → ℚ) (s₁ s₂ : Prng),
      generate_traffic_data rng sqrtQ s₁ = generate_traffic_data rng sqrtQ s₂
        ∧ (generate_traffic_data rng sqrtQ s₁).length = 50 := by
  intro rng sqrtQ s₁ s₂
  exact ⟨rfl, by simp [generate_traffic_data]⟩

/-- **C3, counterexample.** At potholes = 2 the code (truncation) gives road
quality 10, while the claimed formula with `round` gives 9. -/
theorem C3_road_quality_counterexample :
    road_qualityZ 2 = 10
      ∧ road_quality_specRounded 2 = 9
      ∧ road_qualityZ 2 ≠ road_quality_specRounded 2 := by
  have hfl : (⌊(2 : ℚ) / 20 * 9⌋ : ℤ) = 0 := by
    norm_num [Int.floor_eq_iff]
  refine ⟨?_, ?_, ?_⟩ <;>
    norm_num [road_qualityZ, road_quality_specRounded, pyInt, rround, hfl]

/-- The truncated quotient in the road-quality derivation lies in `[0,9]`
whenever potholes lie in `[0,20]`. -/
theorem road_quality_trunc_bounds {p : ℤ} (h0 : 0 ≤ p) (h20 : p ≤ 20) :
    pyInt ((p : ℚ) / 20 * 9) = ⌊(p : ℚ) / 20 * 9⌋
      ∧ 0 ≤ ⌊(p : ℚ) / 20 * 9⌋ ∧ ⌊(p : ℚ) / 20 * 9⌋ ≤ 9 := by
  have hp0 : (0 : ℚ) ≤ (p : ℚ) := by exact_mod_cast h0
  have hp20 : (p : ℚ) ≤ 20 := by exact_mod_cast h20
  have hx0 : (0 : ℚ) ≤ (p : ℚ) / 20 * 9 := by positivity
  have hx9 : (p : ℚ) / 20 * 9 ≤ 9 := by linarith
  refine ⟨pyInt_of_nonneg hx0, Int.floor_nonneg.mpr hx0, ?_⟩
  have := Int.floor_mono hx9
  simpa using this

/-- **C3, amended.** For potholes in `[0,20]` the generated road quality is
`10 − trunc(potholes/20 × 9)` (truncation, not rounding; the `[1,10]` clamp is
a no-op on this domain), it is 10 at potholes 0 and 1 at potholes 20, and it
is monotonically non-increasing in potholes. -/
theorem C3_road_quality_truncates :
    (∀ p : ℤ, 0 ≤ p → p ≤ 20 →
        road_qualityZ p = 10 - pyInt ((p : ℚ) / 20 * 9))
      ∧ road_qualityZ 0 = 10
      ∧ road_qualityZ 20 = 1
      ∧ (∀ p₁ p₂ : ℤ, 0 ≤ p₁ → p₁ ≤ p₂ → p₂ ≤ 20 →
          road_qualityZ p₂ ≤ road_qualityZ p₁) := by
  have hval : ∀ p : ℤ, 0 ≤ p → p ≤ 20 →
      road_qualityZ p = 10 - pyInt ((p : ℚ) / 20 * 9) := by
    intro p h0 h20
    obtain ⟨he, hl, hu⟩ := road_quality_trunc_bounds h0 h20
    rw [road_qualityZ, he]
    rw [max_eq_left (by omega), min_eq_left (by omega)]
  refine ⟨hval, ?_, ?_, ?_⟩
  · rw [hval 0 le_rfl (by norm_num)]
    norm_num [pyInt]
  · rw [hval 20 (by norm_num) le_rfl]
    have : ((20 : ℤ) : ℚ) / 20 * 9 = ((9 : ℤ) : ℚ) := by norm_num
    rw [pyInt_of_nonneg (by rw [this]; norm_num), this, Int.floor_intCast]
    norm_num
  · intro p₁ p₂ h0 h12 h20
    obtain ⟨he₁, hl₁, _⟩ := road_quality_trunc_bounds h0 (le_trans h12 h20)
    obtain ⟨he₂, _, _⟩ := road_quality_trunc_bounds (le_trans h0 h12) h20
    rw [hval p₁ h0 (le_trans h12 h20), hval p₂ (le_trans h0 h12) h20, he₁, he₂]
    have hq : ((p₁ : ℚ)) / 20 * 9 ≤ ((p₂ : ℚ)) / 20 * 9 := by
      have : (p₁ : ℚ) ≤ (p₂ : ℚ) := by exact_mod_cast h12
      linarith
    have := Int.floor_mono hq
    omega

/-- Closed instance of `C3_road_quality_truncates`. -/
theorem C3_road_quality_truncates_witness :
    road_qualityZ 5 = 10 - pyInt ((5 : ℚ) / 20 * 9)
      ∧ road_qualityZ 7 ≤ road_qualityZ 3 := by
  constructor
  · have h := C3_road_quality_truncates.1 5 (by norm_num) (by norm_num)
    simpa using h
  · exact C3_road_quality_truncates.2.2.2 3 7 (by norm_num) (by norm_num)
      (by norm_num)

/-- Range of the generated road quality, for any potholes value. -/
theorem road_qualityZ_mem_range (p : ℤ) :
    1 ≤ road_qualityZ p ∧ road_qualityZ p ≤ 10 := by
  constructor
  · exact le_min (le_max_right _ _) (by norm_num)
  · exact min_le_right _ _

/-- **C8.** Every row of the generated table satisfies the data-model ranges —
distance in `[3,20]`, signals in `[0,30]`, potholes in `[0,20]`, road quality
in `[1,10]`, time at least 15 — and its road quality is the deterministic
function `road_qualityZ` of its potholes value. -/
theorem C8_generated_row_invariants (rng : RNG) (sqrtQ : ℚ → ℚ) (s0 : Prng)
    (r : RouteSample) (hr : r ∈ generate_traffic_data rng sqrtQ s0) :
    3 ≤ r.distance_km ∧ r.distance_km ≤ 20
      ∧ 0 ≤ r.signals ∧ r.signals ≤ 30
      ∧ 0 ≤ r.potholes ∧ r.potholes ≤ 20
      ∧ 1 ≤ r.road_quality ∧ r.road_quality ≤ 10
      ∧ 15 ≤ r.time_min
      ∧ r.road_quality = road_qualityZ r.potholes := by
  rw [generate_traffic_data] at hr
  rw [List.mem_ofFn] at hr
  obtain ⟨i, hi⟩ := hr
  subst hi
  dsimp only
  refine ⟨?_, ?_, ?_, ?_, ?_, ?_, ?_, ?_, ?_, rfl⟩
  · exact le_round2_of_intCast_le (n := 3)
      (by exact_mod_cast le_clip (by norm_num))
  · exact round2_le_of_le_intCast (n := 20) (by exact_mod_cast clip_le)
  · exact le_rround_of_intCast_le (n := 0)
      (by exact_mod_cast le_clip (by norm_num))
  · exact rround_le_of_le_intCast (n := 30) (by exact_mod_cast clip_le)
  · exact le_rround_of_intCast_le (n := 0)
      (by exact_mod_cast le_clip (by norm_num))
  · exact rround_le_of_le_intCast (n := 20) (by exact_mod_cast clip_le)
  · exact (road_qualityZ_mem_range _).1
  · exact (road_qualityZ_mem_range _).2
  · exact le_round2_of_intCast_le (n := 15)
      (by exact_mod_cast le_max_right _ _)

/-- A trivial instantiation of the abstract numpy primitives, used only to
exhibit a concrete generated table. -/
def rng0 : RNG :=
  { seed := fun n => ⟨n⟩
    normal := fun mu _ _ p => (fun _ => mu, p)
    poisson := fun _ _ p => (fun _ => 0, p)
    choice := fun _ _ p => (fun _ => "", p) }

theorem table0_ne_nil : generate_traffic_data rng0 (fun _ => 0) ⟨0⟩ ≠ [] := by
  rw [generate_traffic_data]
  simp

/-- Closed instance of `C8_generated_row_invariants` on the first row of a
concrete generated table. -/
theorem C8_generated_row_invariants_witness :
    15 ≤ ((generate_traffic_data rng0 (fun _ => 0) ⟨0⟩).head table0_ne_nil).time_min
      ∧ 1 ≤ ((generate_traffic_data rng0 (fun _ => 0) ⟨0⟩).head table0_ne_nil).road_quality := by
  obtain ⟨_, _, _, _, _, _, h7, _, h9, _⟩ :=
    C8_generated_row_invariants rng0 (fun _ => 0) ⟨0⟩ _
      (List.head_mem table0_ne_nil)
  exact ⟨h9, h7⟩

end TrafficApp
